import Mathlib

/-!
Shallow embedding of `src/examples/rotary_encoder.rs` (repository `skepth/buds`).

The program samples a two-line quadrature rotary encoder on a periodic timer
interrupt.  Its core is:

* `convert_to_greycode` — pure map from two GPIO levels to a 2-bit code;
* `get_rotation_direction` — atomically swaps the new code into the global
  `PREVIOUS_READING` cell and classifies the delta `old - new`;
* `read_rotary_encoder_isr` — the interrupt handler: converts, resolves,
  updates the `DIRECTION` and `TEST` atomics and drives the output pin;
* `timer_initialize` — configures the hardware timer via four platform calls.

The global `AtomicI8` cells are modelled by explicit state passing over a
record `EncoderState`; the atomic swap of the Rust source is a single step of
the Lean function, so an invocation observes exactly the value left by the
previous one.  `i8` arithmetic (`AtomicI8::fetch_add` wraps on overflow by its
documented semantics) is modelled by `Int` normalised into `[-128, 127]`.
-/

/-- GPIO input levels, as in `esp_idf_svc::hal::gpio::Level`. -/
inductive Level
  | Low
  | High
deriving DecidableEq, Fintype

/-- Rust `enum EncoderDirection { None, Clockwise, AntiClockwise }`
(`rotary_encoder.rs` lines 31–35). -/
inductive EncoderDirection
  | None
  | Clockwise
  | AntiClockwise
deriving DecidableEq, Fintype

/-- Two's-complement wraparound of an `i8` value: normalise an integer into
`[-128, 127]`.  This is the documented behaviour of `AtomicI8::fetch_add`
on overflow. -/
def i8_wrap (n : Int) : Int :=
  (n + 128) % 256 - 128

/-- `convert_to_greycode` (`rotary_encoder.rs` lines 38–45): converts the two
input levels into a grey code in `{0,1,2,3}`. -/
def convert_to_greycode (input_a input_b : Level) : Int :=
  match input_a, input_b with
  | Level.Low, Level.Low => 0
  | Level.Low, Level.High => 1
  | Level.High, Level.High => 2
  | Level.High, Level.Low => 3

/-- `get_rotation_direction` (`rotary_encoder.rs` lines 48–61).  The Rust
function performs `PREVIOUS_READING.swap(new_reading, SeqCst)` and matches on
`old_reading - new_reading`.  The atomic cell is passed explicitly: the
argument `previous_reading` is the cell's value before the call, and the
second component of the result is its value afterwards.  The swap is one
indivisible step of this function. -/
def get_rotation_direction (new_reading : Int) (previous_reading : Int) :
    EncoderDirection × Int :=
  let old_reading := previous_reading
  let delta := old_reading - new_reading
  let dir :=
    if delta = -1 ∨ delta = 3 then EncoderDirection.Clockwise
    else if delta = 1 ∨ delta = -3 then EncoderDirection.AntiClockwise
    else EncoderDirection.None
  (dir, new_reading)

/-- The three global `AtomicI8` cells of `rotary_encoder.rs` lines 26–28. -/
structure EncoderState where
  previous_reading : Int
  direction : Int
  test : Int
deriving DecidableEq

/-- The static initialisers of `rotary_encoder.rs` lines 26–28:
`PREVIOUS_READING = 0`, `DIRECTION = -1`, `TEST = 0`. -/
def initial_state : EncoderState :=
  { previous_reading := 0, direction := -1, test := 0 }

/-- `read_rotary_encoder_isr` (`rotary_encoder.rs` lines 74–100).  Inputs are
the sampled levels of the two encoder pins and the global state; the result is
the new global state, the write performed on the output pin this invocation
(`some true` = `set_high`, `some false` = `set_low`, `none` = the pin was not
written), and the handler's boolean return value. -/
def read_rotary_encoder_isr (input_a input_b : Level) (s : EncoderState) :
    EncoderState × Option Bool × Bool :=
  let grey_code := convert_to_greycode input_a input_b
  let r := get_rotation_direction grey_code s.previous_reading
  match r.1 with
  | EncoderDirection.Clockwise =>
      ({ previous_reading := r.2, direction := 0, test := i8_wrap (s.test + 1) },
       some true, true)
  | EncoderDirection.AntiClockwise =>
      ({ previous_reading := r.2, direction := 1, test := i8_wrap (s.test - 1) },
       none, true)
  | EncoderDirection.None =>
      ({ previous_reading := r.2, direction := -1, test := s.test },
       some false, true)

/-- Feed a list of codes to the direction resolver in order, threading the
`PREVIOUS_READING` cell, and collect the classified directions. -/
def run_resolver : List Int → Int → List EncoderDirection
  | [], _ => []
  | c :: cs, prev =>
    let r := get_rotation_direction c prev
    r.1 :: run_resolver cs r.2

/-- `ESP_OK` of the ESP-IDF platform: success is the result code `0`. -/
def ESP_OK : Int := 0

/-- The result codes reported by the four platform calls made by
`timer_initialize`: `timer_init`, `timer_set_counter_value`,
`timer_set_alarm_value`, `timer_enable_intr`. -/
structure PlatformResults where
  init_result : Int
  set_counter_result : Int
  set_alarm_result : Int
  enable_intr_result : Int

/-- `divider: 20` from the `timer_config_t` literal
(`rotary_encoder.rs` line 111). -/
def timer_divider : Int := 20

/-- The alarm tick count `80000` passed to `timer_set_alarm_value`
(`rotary_encoder.rs` line 133). -/
def timer_alarm_value : Int := 80000

/-- The APB base clock, 80 MHz (`rotary_encoder.rs` line 129: the comment
"the clock is 80 MHz"; `clk_src` is `TIMER_SRC_CLK_APB`). -/
def apb_clock_hz : Int := 80000000

/-- Modelled from the spec: the derived interrupt tick frequency
`baseClock / divider / alarmTicks` (§3 `TimerConfig`).  The source embeds this
arithmetic only in comments (`rotary_encoder.rs` lines 128–133); the constants
are the code's. -/
def derived_tick_frequency : Int :=
  apb_clock_hz / timer_divider / timer_alarm_value

/-- `timer_initialize` (`rotary_encoder.rs` lines 103–139), as a function of
the result codes the four platform calls report.  The source checks only the
result of `timer_init` (lines 121–123); the results of
`timer_set_counter_value`, `timer_set_alarm_value` and `timer_enable_intr`
are discarded (`unsafe { ... };` drops the returned `esp_err_t`). -/
def timer_initialize (r : PlatformResults) : Except String Unit :=
  if r.init_result ≠ ESP_OK then
    Except.error ("Failed to initialize timer. Returned: " ++ toString r.init_result)
  else
    let _ := r.set_counter_result
    let _ := r.set_alarm_result
    let _ := r.enable_intr_result
    Except.ok ()

/-- C1: for consecutive codes `c1` then `c2`, each in `{0,1,2,3}`, the
direction resolver classifies using `delta = oldCode - newCode` exactly per
the table: `Clockwise` iff `delta ∈ {-1, 3}`, `AntiClockwise` iff
`delta ∈ {1, -3}`, and `None` iff `delta ∈ {0, 2, -2}`. -/
theorem delta_table_classification (c1 c2 : Int)
    (h1 : c1 = 0 ∨ c1 = 1 ∨ c1 = 2 ∨ c1 = 3)
    (h2 : c2 = 0 ∨ c2 = 1 ∨ c2 = 2 ∨ c2 = 3) :
    ((get_rotation_direction c2 c1).1 = EncoderDirection.Clockwise ↔
      (c1 - c2 = -1 ∨ c1 - c2 = 3)) ∧
    ((get_rotation_direction c2 c1).1 = EncoderDirection.AntiClockwise ↔
      (c1 - c2 = 1 ∨ c1 - c2 = -3)) ∧
    ((get_rotation_direction c2 c1).1 = EncoderDirection.None ↔
      (c1 - c2 = 0 ∨ c1 - c2 = 2 ∨ c1 - c2 = -2)) := by
  rcases h1 with rfl | rfl | rfl | rfl <;> rcases h2 with rfl | rfl | rfl | rfl <;> decide

/-- Witness for C1 at the concrete pair `c1 = 3`, `c2 = 0` (delta `3`,
classified `Clockwise`). -/
theorem delta_table_classification_witness :
    (get_rotation_direction 0 3).1 = EncoderDirection.Clockwise :=
  (delta_table_classification 3 0 (by decide) (by decide)).1.mpr (by decide)

/-- C2: the Gray-Code Converter is a total pure function on the 4 input
combinations, returns the table values `(Low,Low)=0`, `(Low,High)=1`,
`(High,High)=2`, `(High,Low)=3`, and is injective (hence a bijection onto
`{0,1,2,3}`): every input yields exactly one code and all four outputs are
distinct. -/
theorem greycode_table_bijection :
    (convert_to_greycode Level.Low Level.Low = 0 ∧
     convert_to_greycode Level.Low Level.High = 1 ∧
     convert_to_greycode Level.High Level.High = 2 ∧
     convert_to_greycode Level.High Level.Low = 3) ∧
    (∀ a b a' b' : Level,
      convert_to_greycode a b = convert_to_greycode a' b' → a = a' ∧ b = b') := by
  decide

/-- C3: after any single invocation of the direction resolver with input code
`c`, the `PREVIOUS_READING` cell holds `c`, regardless of the classification;
the read of the old value and the write of the new one are the single
indivisible step of `get_rotation_direction` (the embedding of
`PREVIOUS_READING.swap`). -/
theorem previous_reading_exchange (c prev : Int) :
    (get_rotation_direction c prev).2 = c := rfl

/-- C4: from the initial `PREVIOUS_READING = 0`, feeding the codes
`[0,1,2,3,0,1,2,3]` in order yields `None` on the first call (0 → 0) and
`Clockwise` on each of the seven subsequent calls. -/
theorem forward_sequence :
    run_resolver [0, 1, 2, 3, 0, 1, 2, 3] initial_state.previous_reading =
      [EncoderDirection.None, EncoderDirection.Clockwise, EncoderDirection.Clockwise,
       EncoderDirection.Clockwise, EncoderDirection.Clockwise, EncoderDirection.Clockwise,
       EncoderDirection.Clockwise, EncoderDirection.Clockwise] := by
  decide

/-- C5: the interrupt handler's output-line side effect is asymmetric: the
line is set high (active) when the tick classifies `Clockwise`, not written at
all when it classifies `AntiClockwise`, and set low (inactive) when it
classifies `None`. -/
theorem output_line_asymmetry (a b : Level) (s : EncoderState) :
    (read_rotary_encoder_isr a b s).2.1 =
      match (get_rotation_direction (convert_to_greycode a b) s.previous_reading).1 with
      | EncoderDirection.Clockwise => some true
      | EncoderDirection.AntiClockwise => none
      | EncoderDirection.None => some false := by
  cases h : (get_rotation_direction (convert_to_greycode a b) s.previous_reading).1 <;>
    simp [read_rotary_encoder_isr, h]

/-- C8: resolving the same code twice in a row yields `None` the second time:
after the first exchange stores `c`, the second resolution of `c` sees
`old = new`, so `delta = 0`. -/
theorem resolver_idempotent (c prev : Int) :
    (get_rotation_direction c (get_rotation_direction c prev).2).1 =
      EncoderDirection.None := by
  simp [get_rotation_direction]

/-- C9: with the APB base clock of 80,000,000 Hz, the configured divider 20
and the configured alarm tick count 80,000, the derived interrupt tick
frequency `baseClock / divider / alarmTicks` is exactly 50 Hz. -/
theorem derived_frequency_is_50 : derived_tick_frequency = 50 := by decide

/-- C10: the `DIRECTION` cell encodes `Clockwise` as `0`, `AntiClockwise` as
`1` and `None` as `-1`; every interrupt-handler invocation stores exactly the
value matching that tick's classification, and the cell's initial value is
`-1` (the `None` encoding), which is what an observer reading before the
first tick sees. -/
theorem direction_signal_encoding :
    initial_state.direction = -1 ∧
    ∀ (a b : Level) (s : EncoderState),
      (read_rotary_encoder_isr a b s).1.direction =
        match (get_rotation_direction (convert_to_greycode a b) s.previous_reading).1 with
        | EncoderDirection.Clockwise => 0
        | EncoderDirection.AntiClockwise => 1
        | EncoderDirection.None => -1 := by
  refine ⟨rfl, fun a b s => ?_⟩
  cases h : (get_rotation_direction (convert_to_greycode a b) s.previous_reading).1 <;>
    simp [read_rotary_encoder_isr, h]

/-- C7, counterexample: with the `TEST` counter at its `i8` maximum `127`, a
tick classified `Clockwise` (previous reading `0`, sampled code `1`) leaves
the counter at `-128` (two's-complement wraparound of `AtomicI8::fetch_add`),
not at `127 + 1 = 128` as "incremented by 1" states. -/
theorem counter_increment_counterexample :
    (get_rotation_direction (convert_to_greycode Level.Low Level.High) 0).1 =
      EncoderDirection.Clockwise ∧
    (read_rotary_encoder_isr Level.Low Level.High
        { previous_reading := 0, direction := -1, test := 127 }).1.test = -128 ∧
    (-128 : Int) ≠ 127 + 1 := by
  decide

/-- C7, amended: on every invocation the `TEST` counter is incremented by 1
with `i8` two's-complement wraparound when the tick classifies `Clockwise`,
decremented by 1 with the same wraparound when it classifies `AntiClockwise`,
and left unchanged when it classifies `None`. -/
theorem counter_update_wrapping (a b : Level) (s : EncoderState) :
    (read_rotary_encoder_isr a b s).1.test =
      match (get_rotation_direction (convert_to_greycode a b) s.previous_reading).1 with
      | EncoderDirection.Clockwise => i8_wrap (s.test + 1)
      | EncoderDirection.AntiClockwise => i8_wrap (s.test - 1)
      | EncoderDirection.None => s.test := by
  cases h : (get_rotation_direction (convert_to_greycode a b) s.previous_reading).1 <;>
    simp [read_rotary_encoder_isr, h]

/-- C6, counterexample: when `timer_init` reports `ESP_OK` but
`timer_set_counter_value` reports the non-success code `1`,
`timer_initialize` still returns success — the claim that an error is raised
when any of the four platform calls reports non-success is false. -/
theorem timer_error_counterexample :
    (1 : Int) ≠ ESP_OK ∧
    timer_initialize ⟨ESP_OK, 1, ESP_OK, ESP_OK⟩ = Except.ok () :=
  ⟨by decide, rfl⟩

/-- C6, amended: `timer_initialize` returns a descriptive error if and only
if the `timer_init` platform call reports non-success; the result codes of
the counter reset, alarm arming and interrupt-enabling calls are discarded
and never cause an error. -/
theorem timer_initialize_error_iff (r : PlatformResults) :
    (∃ e, timer_initialize r = Except.error e) ↔ r.init_result ≠ ESP_OK := by
  unfold timer_initialize
  by_cases h : r.init_result = ESP_OK <;> simp [h]
